import Mathlib

/-!
Shallow embedding of `src/app.py` (Flask + Redis ESP32 LED control server).

The Redis store is modelled as a record of the four fixed keys the program
uses (`esp32:led1_state`, `esp32:led2_state`, `esp32:last_heartbeat`,
`esp32:reset_command`); each holds an optional stored value (missing key =
`none`).  Redis is configured with `decode_responses=True`, so `r.get`
returns strings and `r.set key n` for an integer `n` stores the decimal
string of `n`.

Timestamps: the code stores `datetime.now().isoformat()` and reads it back
with `datetime.fromisoformat`.  An `isoformat` output always parses back to
the instant it denotes, so a stored heartbeat value is modelled by the
denotation of the string: either a parsable timestamp carrying the instant
(seconds since epoch, as `Nat`) or a malformed string that
`fromisoformat` rejects.

Handlers are pure functions `Store → ... → Response × Store`; Python
exceptions caught by a handler's `try/except` are modelled by the `none`
case of the fallible parses, and `abort(400, ...)` by a 400 `Response`.
-/

namespace Esp32Control

/-- A JSON value appearing in a response body: the handlers only emit
booleans, integers and strings. -/
inductive JsonVal where
  | jbool : Bool → JsonVal
  | jint : Int → JsonVal
  | jstr : String → JsonVal
deriving DecidableEq, Repr

/-- An HTTP response: status code and JSON object body (field list). -/
structure Response where
  status : Nat
  body : List (String × JsonVal)
deriving DecidableEq, Repr

/-- Look a field up in a JSON object body. -/
def lookupField : List (String × JsonVal) → String → Option JsonVal
  | [], _ => none
  | (k, v) :: rest, key => if k = key then some v else lookupField rest key

/-- A value stored under the heartbeat key: either a parsable ISO-8601
timestamp, represented by the instant (in seconds) it denotes, or a
malformed string rejected by `datetime.fromisoformat`. -/
inductive TsVal where
  | iso : Nat → TsVal
  | malformed : String → TsVal
deriving DecidableEq, Repr

/-- `datetime.fromisoformat` on a stored heartbeat value: a parsable
timestamp yields its instant, a malformed string raises (`none`). -/
def fromisoformat : TsVal → Option Nat
  | .iso t => some t
  | .malformed _ => none

/-- The four fixed Redis keys used by the program (`LED1_STATE_KEY`,
`LED2_STATE_KEY`, `HEARTBEAT_KEY`, `RESET_COMMAND_KEY`).  A `none` field is
a key absent from Redis. -/
structure Store where
  led1_state : Option String
  led2_state : Option String
  last_heartbeat : Option TsVal
  reset_command : Option String
deriving DecidableEq, Repr

/-- A Redis instance with none of the program's keys set (first boot). -/
def Store.empty : Store := ⟨none, none, none, none⟩

/-- The identifier part of the two LED state keys. -/
inductive LedKey where
  | led1
  | led2
deriving DecidableEq, Repr

/-- `r.get` on an LED state key. -/
def Store.getLed (st : Store) : LedKey → Option String
  | .led1 => st.led1_state
  | .led2 => st.led2_state

/-- `r.set` on an LED state key. -/
def Store.setLed (st : Store) : LedKey → String → Store
  | .led1, v => { st with led1_state := some v }
  | .led2, v => { st with led2_state := some v }

/-- A decimal digit's value, else `none` (model of Python digit check). -/
def pyDigit (c : Char) : Option Nat :=
  if c.isDigit then some (c.toNat - 48) else none

/-- Accumulate decimal digits; any non-digit character fails. -/
def parseDigitsAux : List Char → Nat → Option Nat
  | [], acc => some acc
  | c :: cs, acc =>
    match pyDigit c with
    | some d => parseDigitsAux cs (acc * 10 + d)
    | none => none

/-- A non-empty all-digit character list as a `Nat`, else `none`. -/
def parseNatDigits : List Char → Option Nat
  | [] => none
  | cs => parseDigitsAux cs 0

/-- Model of Python's `int(s)` for strings: an optional sign followed by at
least one decimal digit; anything else raises `ValueError` (`none`). -/
def parsePyInt (s : String) : Option Int :=
  match s.data with
  | '-' :: cs => (parseNatDigits cs).map (fun n => -(n : Int))
  | '+' :: cs => (parseNatDigits cs).map (fun n => (n : Int))
  | cs => (parseNatDigits cs).map (fun n => (n : Int))

/-- An environment: a finite map from variable names to values. -/
def Env : Type := List (String × String)

/-- `os.environ.get`. -/
def getenv : Env → String → Option String
  | [], _ => none
  | (k, v) :: rest, key => if k = key then some v else getenv rest key

/-- The configuration the process reads at start: `REDIS_URL` comes from
the environment (line 14); `HEARTBEAT_TIMEOUT_SECONDS` is the literal `60`
(line 49). -/
structure Config where
  redis_url : Option String
  heartbeat_timeout_seconds : Nat
deriving DecidableEq, Repr

/-- Module-level configuration reading at process start. -/
def readConfig (env : Env) : Config :=
  { redis_url := getenv env "REDIS_URL"
    heartbeat_timeout_seconds := 60 }

/-- `HEARTBEAT_TIMEOUT_SECONDS = 60` (line 49 of `src/app.py`). -/
def HEARTBEAT_TIMEOUT_SECONDS : Nat := 60

/-- Module-level initialization (lines 52-60): set each of the two LED
state keys and the reset command key to `0` when it is absent.  (The
heartbeat key is not touched.) -/
def initializeStates (st : Store) : Store :=
  let st1 := if st.led1_state = none then { st with led1_state := some "0" } else st
  let st2 := if st1.led2_state = none then { st1 with led2_state := some "0" } else st1
  if st2.reset_command = none then { st2 with reset_command := some "0" } else st2

/-- `_get_led_state` (lines 65-68): `int(state) if state is not None else 0`;
`none` models the `ValueError` that `int` raises on a non-numeric string. -/
def _get_led_state (st : Store) (k : LedKey) : Option Int :=
  match st.getLed k with
  | none => some 0
  | some s => parsePyInt s

/-- `_get_online_status` (lines 70-82), with `now` the current time in
seconds: `False` when the heartbeat key is absent or its value malformed,
else whether `now - last_time < HEARTBEAT_TIMEOUT_SECONDS`.  (Python's
`total_seconds()` is negative for a future timestamp, hence below the
threshold; `Nat` truncated subtraction gives `0`, also below it.) -/
def _get_online_status (st : Store) (now : Nat) : Bool :=
  match st.last_heartbeat with
  | none => false
  | some v =>
    match fromisoformat v with
    | none => false
    | some last_time => decide (now - last_time < HEARTBEAT_TIMEOUT_SECONDS)

/-- `receive_heartbeat` (lines 95-130), `POST /heartbeat` at time `now`:
store the current timestamp, read both LED states, read the reset flag and
clear it when it is `"1"`, and answer with the raw integer LED states and
the boolean flag value observed.  An exception (a `ValueError` from
`int(...)`) lands in the `except` branch: 500, after the heartbeat write
already happened. -/
def receive_heartbeat (st : Store) (now : Nat) : Response × Store :=
  let st1 : Store := { st with last_heartbeat := some (.iso now) }
  match _get_led_state st1 .led1, _get_led_state st1 .led2 with
  | some led1_state, some led2_state =>
    let reset_command := st1.reset_command
    let st2 : Store :=
      if reset_command = some "1" then { st1 with reset_command := some "0" } else st1
    (⟨200, [("led1", .jint led1_state),
            ("led2", .jint led2_state),
            ("reset_wifi", .jbool (decide (reset_command = some "1")))]⟩, st2)
  | _, _ => (⟨500, [("error", .jstr "Error interno del servidor")]⟩, st1)

/-- `get_led_status` (lines 135-154), `GET /led/status` at time `now`: read
both LED states and the derived online value; booleans in the body.  A
`ValueError` from `int(...)` lands in the `except` branch: 500. -/
def get_led_status (st : Store) (now : Nat) : Response × Store :=
  match _get_led_state st .led1, _get_led_state st .led2 with
  | some led1_state, some led2_state =>
    (⟨200, [("led1", .jbool (decide (led1_state = 1))),
            ("led2", .jbool (decide (led2_state = 1))),
            ("online", .jbool (_get_online_status st now))]⟩, st)
  | _, _ => (⟨500, [("error", .jstr "Error interno al obtener el estado")]⟩, st)

/-- `control_led` (lines 159-183), `POST /led/<action>/<int:numero>`:
reject `numero` outside `{1, 2}` and `action` outside `{on, off}` with
`abort(400, ...)` before any store access, then overwrite the selected LED
key with `1` or `0`. -/
def control_led (st : Store) (action : String) (numero : Nat) : Response × Store :=
  if ¬(numero = 1 ∨ numero = 2) then
    (⟨400, [("error", .jstr "Numero de LED invalido. Solo se acepta 1 o 2.")]⟩, st)
  else if ¬(action = "on" ∨ action = "off") then
    (⟨400, [("error", .jstr "Accion invalida. Solo se acepta on u off.")]⟩, st)
  else
    let new_state : Int := if action = "on" then 1 else 0
    let key_to_set : LedKey := if numero = 1 then .led1 else .led2
    (⟨200, [("success", .jbool true),
            ("led", .jint numero),
            ("new_state", .jint new_state)]⟩,
     st.setLed key_to_set (toString new_state))

/-- `reset_credentials` (lines 188-203), `POST /credentials/reset`: arm the
reset flag by overwriting the reset command key with `1`. -/
def reset_credentials (st : Store) : Response × Store :=
  (⟨200, [("success", .jbool true),
          ("message", .jstr "Comando de reseteo enviado. El ESP32 lo ejecutara en el proximo heartbeat.")]⟩,
   { st with reset_command := some "1" })

/-- The four routes of the application. -/
inductive Request where
  | heartbeat
  | ledStatus
  | ledControl (action : String) (numero : Nat)
  | credReset
deriving DecidableEq, Repr

/-- Whether a `ledControl` request passes the two `abort(400, ...)`
validation checks (always true for the other routes). -/
def reqValid : Request → Bool
  | .ledControl action numero =>
    (decide (numero = 1) || decide (numero = 2)) &&
      (decide (action = "on") || decide (action = "off"))
  | _ => true

/-- The number of Redis operations `receive_heartbeat` attempts on store
`st`, in execution order: the heartbeat set (line 104), the two LED gets
(lines 108-109) — stopping when `int(...)` raises a `ValueError` — then the
flag get (line 112) and, only when the flag read `"1"`, the flag-clearing
set (line 117). -/
def receive_heartbeat_ops (st : Store) : Nat :=
  match _get_led_state st .led1 with
  | none => 2
  | some _ =>
    match _get_led_state st .led2 with
    | none => 3
    | some _ => if st.reset_command = some "1" then 5 else 4

/-- `receive_heartbeat` when the Redis operation at attempt index `k`
raises (`failAt = some k`, every earlier operation having taken effect):
a failure at index 0 is before the heartbeat set and leaves the store
unchanged; a failure at a later attempted index happens after the line-104
heartbeat write, which persists, while the flag is left uncleared.  An
index at or beyond the attempted count, or `failAt = none`, means no Redis
operation fails and the run is the ordinary one. -/
def receive_heartbeat_run (st : Store) (now : Nat) (failAt : Option Nat) :
    Response × Store :=
  match failAt with
  | none => receive_heartbeat st now
  | some k =>
    if k = 0 then (⟨500, [("error", .jstr "Error interno del servidor")]⟩, st)
    else if k < receive_heartbeat_ops st then
      (⟨500, [("error", .jstr "Error interno del servidor")]⟩,
       { st with last_heartbeat := some (.iso now) })
    else receive_heartbeat st now

/-- The number of Redis operations `get_led_status` attempts: the two LED
gets (lines 142-143) — stopping when `int(...)` raises — then the heartbeat
get (line 72). -/
def get_led_status_ops (st : Store) : Nat :=
  match _get_led_state st .led1 with
  | none => 1
  | some _ =>
    match _get_led_state st .led2 with
    | none => 2
    | some _ => 3

/-- `get_led_status` when the Redis operation at attempt index `k` raises:
all its operations are reads, so the store is unchanged on every path. -/
def get_led_status_run (st : Store) (now : Nat) (failAt : Option Nat) :
    Response × Store :=
  match failAt with
  | none => get_led_status st now
  | some k =>
    if k < get_led_status_ops st then
      (⟨500, [("error", .jstr "Error interno al obtener el estado")]⟩, st)
    else get_led_status st now

/-- `control_led` on valid input when the Redis operation at attempt index
`k` raises: its `try` block holds a single set (line 176), so only index 0
can fail, before any write. -/
def control_led_run (st : Store) (action : String) (numero : Nat)
    (failAt : Option Nat) : Response × Store :=
  match failAt with
  | none => control_led st action numero
  | some k =>
    if k < 1 then (⟨500, [("error", .jstr "Error al actualizar Redis.")]⟩, st)
    else control_led st action numero

/-- `reset_credentials` when the Redis operation at attempt index `k`
raises: a single set (line 195), so only index 0 can fail. -/
def reset_credentials_run (st : Store) (failAt : Option Nat) : Response × Store :=
  match failAt with
  | none => reset_credentials st
  | some k =>
    if k < 1 then
      (⟨500, [("error", .jstr "Error al comunicar con Redis para el reseteo.")]⟩, st)
    else reset_credentials st

/-- How many Redis operations the handler of `req` attempts on store `st`
(zero store operations precede `control_led`'s input validation). -/
def requestOps (req : Request) (st : Store) : Nat :=
  match req with
  | .heartbeat => receive_heartbeat_ops st
  | .ledStatus => get_led_status_ops st
  | .ledControl _ _ => 1
  | .credReset => 1

/-- Full request dispatch: `check_redis_status` (lines 86-90) returns 503
for every route when the startup connection failed (`r is None`);
otherwise the handler runs, with `failAt = some k` marking the Redis
operation (at attempt index `k`, operations before it having taken effect)
that raises into the handler's `except` branch — `control_led` validates,
and aborts with 400, before its `try` block ever touches Redis. -/
def dispatch (connected : Bool) (failAt : Option Nat) (req : Request) (st : Store)
    (now : Nat) : Response × Store :=
  if ¬connected then
    (⟨503, [("error", .jstr "Servicio de base de datos (Redis) no disponible.")]⟩, st)
  else
    match req with
    | .heartbeat => receive_heartbeat_run st now failAt
    | .ledStatus => get_led_status_run st now failAt
    | .ledControl action numero =>
      if ¬reqValid (.ledControl action numero) then control_led st action numero
      else control_led_run st action numero failAt
    | .credReset => reset_credentials_run st failAt

/-- Both LED state keys hold values on which `int(...)` succeeds. -/
def ledsOk (st : Store) : Bool :=
  (_get_led_state st .led1).isSome && (_get_led_state st .led2).isSome

/-- The invariant written by the program: each of the two LED state keys
and the reset command key holds exactly the string `"0"` or `"1"`. -/
def storeInv (st : Store) : Bool :=
  (decide (st.led1_state = some "0") || decide (st.led1_state = some "1")) &&
  (decide (st.led2_state = some "0") || decide (st.led2_state = some "1")) &&
  (decide (st.reset_command = some "0") || decide (st.reset_command = some "1"))

/-- A single-threaded consumer polling `POST /heartbeat` at the given
sequence of times: the list of responses it observes, and the final
store. -/
def runHeartbeats (st : Store) : List Nat → List Response × Store
  | [] => ([], st)
  | t :: ts =>
    let p := receive_heartbeat st t
    let q := runHeartbeats p.2 ts
    (p.1 :: q.1, q.2)

/-! ## Helper lemmas -/

theorem _get_led_state_set_heartbeat (st : Store) (v : Option TsVal) (k : LedKey) :
    _get_led_state { st with last_heartbeat := v } k = _get_led_state st k := by
  cases k <;> rfl

theorem receive_heartbeat_last (st : Store) (now : Nat) :
    (receive_heartbeat st now).2.last_heartbeat = some (.iso now) := by
  simp only [receive_heartbeat]
  split
  · split <;> rfl
  · rfl

theorem receive_heartbeat_leds (st : Store) (now : Nat) :
    (receive_heartbeat st now).2.led1_state = st.led1_state ∧
    (receive_heartbeat st now).2.led2_state = st.led2_state := by
  simp only [receive_heartbeat]
  split
  · split <;> exact ⟨rfl, rfl⟩
  · exact ⟨rfl, rfl⟩

theorem receive_heartbeat_flag_semantics (st : Store) (now : Nat) (v1 v2 : Int)
    (h1 : _get_led_state st .led1 = some v1) (h2 : _get_led_state st .led2 = some v2) :
    lookupField (receive_heartbeat st now).1.body "reset_wifi" =
      some (.jbool (decide (st.reset_command = some "1"))) ∧
    (receive_heartbeat st now).2.reset_command =
      (if st.reset_command = some "1" then some "0" else st.reset_command) := by
  have e1 : _get_led_state { st with last_heartbeat := some (.iso now) } .led1 = some v1 := by
    rw [_get_led_state_set_heartbeat]; exact h1
  have e2 : _get_led_state { st with last_heartbeat := some (.iso now) } .led2 = some v2 := by
    rw [_get_led_state_set_heartbeat]; exact h2
  simp only [receive_heartbeat, e1, e2]
  constructor
  · simp [lookupField]
  · split <;> simp_all

theorem _get_led_state_congr (st st' : Store) (k : LedKey)
    (h : st'.getLed k = st.getLed k) : _get_led_state st' k = _get_led_state st k := by
  unfold _get_led_state
  rw [h]

theorem ledsOk_of_eq_leds (st st' : Store) (h1 : st'.led1_state = st.led1_state)
    (h2 : st'.led2_state = st.led2_state) : ledsOk st' = ledsOk st := by
  unfold ledsOk
  rw [_get_led_state_congr st st' .led1 h1, _get_led_state_congr st st' .led2 h2]

theorem receive_heartbeat_ledsOk (st : Store) (now : Nat) :
    ledsOk (receive_heartbeat st now).2 = ledsOk st :=
  ledsOk_of_eq_leds st _ (receive_heartbeat_leds st now).1 (receive_heartbeat_leds st now).2

theorem ledsOk_elim (st : Store) (h : ledsOk st = true) :
    ∃ v1 v2, _get_led_state st .led1 = some v1 ∧ _get_led_state st .led2 = some v2 := by
  unfold ledsOk at h
  rw [Bool.and_eq_true, Option.isSome_iff_exists, Option.isSome_iff_exists] at h
  obtain ⟨⟨v1, h1⟩, v2, h2⟩ := h
  exact ⟨v1, v2, h1, h2⟩

theorem runHeartbeats_cleared (ts : List Nat) (st : Store)
    (hl : ledsOk st = true) (hf : st.reset_command = some "0") :
    (∀ resp ∈ (runHeartbeats st ts).1,
        lookupField resp.body "reset_wifi" = some (.jbool false)) ∧
    (runHeartbeats st ts).2.reset_command = some "0" ∧
    ledsOk (runHeartbeats st ts).2 = true := by
  induction ts generalizing st with
  | nil => exact ⟨by simp [runHeartbeats], hf, hl⟩
  | cons t ts ih =>
    obtain ⟨v1, v2, h1, h2⟩ := ledsOk_elim st hl
    have hsem := receive_heartbeat_flag_semantics st t v1 v2 h1 h2
    have hflag : (receive_heartbeat st t).2.reset_command = some "0" := by
      rw [hsem.2, hf]
      simp
    have hok : ledsOk (receive_heartbeat st t).2 = true := by
      rw [receive_heartbeat_ledsOk]
      exact hl
    have hresp : lookupField (receive_heartbeat st t).1.body "reset_wifi" =
        some (.jbool false) := by
      rw [hsem.1, hf]
      simp
    obtain ⟨ihresp, ihflag, ihok⟩ := ih (receive_heartbeat st t).2 hok hflag
    refine ⟨?_, ihflag, ihok⟩
    intro resp hm
    simp only [runHeartbeats, List.mem_cons] at hm
    rcases hm with rfl | hm
    · exact hresp
    · exact ihresp resp hm

theorem control_led_invalid (st : Store) (action : String) (numero : Nat)
    (h : ¬(numero = 1 ∨ numero = 2) ∨ ¬(action = "on" ∨ action = "off")) :
    (control_led st action numero).1.status = 400 ∧
    (control_led st action numero).2 = st := by
  unfold control_led
  rcases h with h | h
  · simp [h]
  · by_cases hn : numero = 1 ∨ numero = 2 <;> simp [hn, h]

theorem get_led_status_snd (st : Store) (now : Nat) :
    (get_led_status st now).2 = st := by
  simp only [get_led_status]
  split <;> rfl

theorem storeInv_iff (st : Store) : storeInv st = true ↔
    (st.led1_state = some "0" ∨ st.led1_state = some "1") ∧
    (st.led2_state = some "0" ∨ st.led2_state = some "1") ∧
    (st.reset_command = some "0" ∨ st.reset_command = some "1") := by
  unfold storeInv
  simp [and_assoc]

theorem _get_led_state_of_val (st : Store) (k : LedKey) (s : String)
    (h : st.getLed k = some s) : _get_led_state st k = parsePyInt s := by
  unfold _get_led_state
  rw [h]

theorem storeInv_ledsOk (st : Store) (h : storeInv st = true) : ledsOk st = true := by
  obtain ⟨hl1, hl2, _⟩ := (storeInv_iff st).1 h
  unfold ledsOk
  rcases hl1 with e1 | e1 <;> rcases hl2 with e2 | e2 <;>
    rw [_get_led_state_of_val st .led1 _ e1, _get_led_state_of_val st .led2 _ e2] <;> decide

theorem initializeStates_of_present (st : Store) (h1 : st.led1_state ≠ none)
    (h2 : st.led2_state ≠ none) (h3 : st.reset_command ≠ none) :
    initializeStates st = st := by
  unfold initializeStates
  simp [h1, h2, h3]

theorem receive_heartbeat_run_status (st : Store) (now k : Nat)
    (hk : k < receive_heartbeat_ops st) :
    (receive_heartbeat_run st now (some k)).1.status = 500 := by
  unfold receive_heartbeat_run
  by_cases h0 : k = 0
  · simp [h0]
  · simp [h0, hk]

theorem receive_heartbeat_run_state (st : Store) (now k : Nat) (h1 : 1 ≤ k)
    (hk : k < receive_heartbeat_ops st) :
    (receive_heartbeat_run st now (some k)).2 =
      { st with last_heartbeat := some (.iso now) } := by
  unfold receive_heartbeat_run
  have h0 : ¬k = 0 := by omega
  simp [h0, hk]

theorem get_led_status_run_status (st : Store) (now k : Nat)
    (hk : k < get_led_status_ops st) :
    (get_led_status_run st now (some k)).1.status = 500 := by
  unfold get_led_status_run
  simp [hk]

theorem get_led_status_run_state (st : Store) (now k : Nat) :
    (get_led_status_run st now (some k)).2 = st := by
  unfold get_led_status_run
  by_cases hk : k < get_led_status_ops st
  · simp [hk]
  · simp [hk, get_led_status_snd]

/-! ## Claim theorems -/

/-- C3 counterexample: on a first boot (all keys absent), the module-level
initialization leaves the heartbeat timestamp key absent — it does not set
a `0`/epoch default for it, while it does set the LED and reset keys. -/
theorem init_skips_heartbeat_key :
    (initializeStates Store.empty).last_heartbeat = none ∧
    (initializeStates Store.empty).led1_state = some "0" ∧
    (initializeStates Store.empty).led2_state = some "0" ∧
    (initializeStates Store.empty).reset_command = some "0" := by
  decide

/-- C3 (amended): initialization sets `"0"` for each of the two LED state
keys and the reset flag key only when that key is absent; it never touches
the heartbeat timestamp key; it is idempotent; afterwards the LED state
keys are present, and on a first boot their readers observe `0` (false). -/
theorem initialization_spec (st : Store) :
    (initializeStates st).led1_state =
      (if st.led1_state = none then some "0" else st.led1_state) ∧
    (initializeStates st).led2_state =
      (if st.led2_state = none then some "0" else st.led2_state) ∧
    (initializeStates st).reset_command =
      (if st.reset_command = none then some "0" else st.reset_command) ∧
    (initializeStates st).last_heartbeat = st.last_heartbeat ∧
    initializeStates (initializeStates st) = initializeStates st ∧
    (initializeStates st).led1_state ≠ none ∧
    (initializeStates st).led2_state ≠ none ∧
    _get_led_state (initializeStates Store.empty) .led1 = some 0 ∧
    _get_led_state (initializeStates Store.empty) .led2 = some 0 := by
  obtain ⟨l1, l2, hb, rc⟩ := st
  unfold initializeStates
  cases l1 <;> cases l2 <;> cases rc <;> simp <;> decide

/-- C4: `POST /led/<action>/<id>` with an id outside `{1, 2}` or an action
outside `{on, off}` answers 400 and leaves the whole store unchanged. -/
theorem invalid_control_led (st : Store) (action : String) (numero : Nat)
    (h : ¬(numero = 1 ∨ numero = 2) ∨ ¬(action = "on" ∨ action = "off")) :
    (control_led st action numero).1.status = 400 ∧
    (control_led st action numero).2 = st :=
  control_led_invalid st action numero h

theorem invalid_control_led_witness :
    (control_led Store.empty "on" 3).1.status = 400 ∧
    (control_led Store.empty "on" 3).2 = Store.empty :=
  invalid_control_led Store.empty "on" 3 (by decide)

/-- C5 counterexample: a successful `POST /led/on/1` does not answer
`{"message": "LED 1 encendido"}` — its body is success/led/new_state and
carries no `message` field at all. -/
theorem led_on_body_has_no_message :
    lookupField (control_led Store.empty "on" 1).1.body "message" = none ∧
    (control_led Store.empty "on" 1).1.status = 200 ∧
    (control_led Store.empty "on" 1).1.body =
      [("success", .jbool true), ("led", .jint 1), ("new_state", .jint 1)] := by
  decide

/-- C5 (amended): a successful `POST /led/on/1` answers 200 with body
`{"success": true, "led": 1, "new_state": 1}`; a subsequent
`GET /led/status` reports `led1: true`, while the stored `led2` value is
unchanged and is reported as before. -/
theorem led_on_read_after_write (st : Store) (now : Nat) (v2 : Int)
    (h2 : _get_led_state st .led2 = some v2) :
    (control_led st "on" 1).1.status = 200 ∧
    (control_led st "on" 1).1.body =
      [("success", .jbool true), ("led", .jint 1), ("new_state", .jint 1)] ∧
    (control_led st "on" 1).2.led2_state = st.led2_state ∧
    lookupField (get_led_status (control_led st "on" 1).2 now).1.body "led1" =
      some (.jbool true) ∧
    lookupField (get_led_status (control_led st "on" 1).2 now).1.body "led2" =
      some (.jbool (decide (v2 = 1))) := by
  have hc : (control_led st "on" 1).2 = { st with led1_state := some "1" } := rfl
  have e1 : _get_led_state { st with led1_state := some "1" } .led1 = some 1 := rfl
  have e2 : _get_led_state { st with led1_state := some "1" } .led2 = some v2 :=
    (_get_led_state_congr st { st with led1_state := some "1" } .led2 rfl).trans h2
  refine ⟨rfl, rfl, rfl, ?_, ?_⟩ <;>
    · rw [hc]
      simp only [get_led_status, e1, e2]
      simp [lookupField]

theorem led_on_read_after_write_witness :
    lookupField (get_led_status (control_led Store.empty "on" 1).2 0).1.body "led1" =
      some (.jbool true) :=
  (led_on_read_after_write Store.empty 0 0 rfl).2.2.2.1

/-- C7 counterexample: even with `HEARTBEAT_TIMEOUT_SECONDS=15` present in
the environment, the configured timeout is still `60`, identical to what an
empty environment yields — the timeout is not read from the environment. -/
theorem timeout_ignores_env :
    (readConfig [("HEARTBEAT_TIMEOUT_SECONDS", "15")]).heartbeat_timeout_seconds = 60 ∧
    (readConfig [("HEARTBEAT_TIMEOUT_SECONDS", "15")]).heartbeat_timeout_seconds =
      (readConfig []).heartbeat_timeout_seconds := by
  decide

/-- C7 (amended): at process start the store connection URL is read from
the environment (`REDIS_URL`), but the heartbeat timeout used by the online
determination is the fixed program constant `60`, the same for every
environment. -/
theorem config_reading (env : Env) :
    (readConfig env).redis_url = getenv env "REDIS_URL" ∧
    (readConfig env).heartbeat_timeout_seconds = HEARTBEAT_TIMEOUT_SECONDS ∧
    HEARTBEAT_TIMEOUT_SECONDS = 60 :=
  ⟨rfl, rfl, rfl⟩

/-- C8: `GET /led/status` never mutates stored state — for every store and
time, the store after the handler equals the store before it (so the LED
keys, the heartbeat timestamp and the reset flag are all unchanged). -/
theorem get_led_status_pure (st : Store) (now : Nat) :
    (get_led_status st now).2 = st :=
  get_led_status_snd st now

/-- C1: the online determination reads the stored heartbeat timestamp and
is false when the key is absent or its value unparsable; when it parses to
instant `t` it is true exactly when `now - t` is below
`HEARTBEAT_TIMEOUT_SECONDS`; it is true immediately after `POST /heartbeat`
records a heartbeat and false once time reaches the recorded time plus the
timeout; and `GET /led/status` reports exactly this derived value. -/
theorem online_status_spec (st : Store) (now later t : Nat) (v : TsVal) :
    (st.last_heartbeat = none → _get_online_status st now = false) ∧
    (st.last_heartbeat = some v → fromisoformat v = none →
      _get_online_status st now = false) ∧
    (st.last_heartbeat = some v → fromisoformat v = some t →
      (_get_online_status st now = true ↔ now - t < HEARTBEAT_TIMEOUT_SECONDS)) ∧
    _get_online_status (receive_heartbeat st now).2 now = true ∧
    (now + HEARTBEAT_TIMEOUT_SECONDS ≤ later →
      _get_online_status (receive_heartbeat st now).2 later = false) ∧
    (∀ v1 v2 : Int, _get_led_state st .led1 = some v1 →
      _get_led_state st .led2 = some v2 →
      lookupField (get_led_status st now).1.body "online" =
        some (.jbool (_get_online_status st now))) := by
  refine ⟨?_, ?_, ?_, ?_, ?_, ?_⟩
  · intro h
    simp [_get_online_status, h]
  · intro h h2
    simp [_get_online_status, h, h2]
  · intro h h2
    simp [_get_online_status, h, h2]
  · unfold _get_online_status
    rw [receive_heartbeat_last]
    simp [fromisoformat, HEARTBEAT_TIMEOUT_SECONDS, Nat.sub_self]
  · intro hle
    unfold _get_online_status
    rw [receive_heartbeat_last]
    simp only [fromisoformat, decide_eq_false_iff_not, not_lt]
    unfold HEARTBEAT_TIMEOUT_SECONDS at hle ⊢
    omega
  · intro v1 v2 h1 h2
    simp only [get_led_status, h1, h2]
    simp [lookupField]

theorem online_status_spec_witness :
    _get_online_status Store.empty 5 = false ∧
    _get_online_status (receive_heartbeat Store.empty 100).2 100 = true ∧
    _get_online_status (receive_heartbeat Store.empty 100).2 160 = false :=
  ⟨(online_status_spec Store.empty 5 0 0 (.iso 0)).1 rfl,
   (online_status_spec Store.empty 100 0 0 (.iso 0)).2.2.2.1,
   (online_status_spec Store.empty 100 160 0 (.iso 0)).2.2.2.2.1 (by decide)⟩

/-- C2: after `POST /credentials/reset` arms the flag, a single-threaded
consumer polling `POST /heartbeat` observes `reset_wifi` as true on exactly
the first response and false on every subsequent one; the heartbeat handler
reads the flag, writes it back to `"0"` exactly when it observed `"1"`, and
reports the value it observed. -/
theorem one_shot_reset_flag (st : Store) (now : Nat) (ts : List Nat)
    (hl : ledsOk st = true) :
    lookupField (receive_heartbeat (reset_credentials st).2 now).1.body "reset_wifi" =
      some (.jbool true) ∧
    (∀ resp ∈ (runHeartbeats (receive_heartbeat (reset_credentials st).2 now).2 ts).1,
        lookupField resp.body "reset_wifi" = some (.jbool false)) ∧
    lookupField (receive_heartbeat st now).1.body "reset_wifi" =
      some (.jbool (decide (st.reset_command = some "1"))) ∧
    (receive_heartbeat st now).2.reset_command =
      (if st.reset_command = some "1" then some "0" else st.reset_command) := by
  obtain ⟨v1, v2, h1, h2⟩ := ledsOk_elim st hl
  have hlarm : ledsOk (reset_credentials st).2 = true :=
    (ledsOk_of_eq_leds st (reset_credentials st).2 rfl rfl).trans hl
  obtain ⟨w1, w2, g1, g2⟩ := ledsOk_elim (reset_credentials st).2 hlarm
  have hsem := receive_heartbeat_flag_semantics (reset_credentials st).2 now w1 w2 g1 g2
  have harmflag : (reset_credentials st).2.reset_command = some "1" := rfl
  refine ⟨?_, ?_, ?_, ?_⟩
  · rw [hsem.1, harmflag]
    simp
  · have hafter : (receive_heartbeat (reset_credentials st).2 now).2.reset_command =
        some "0" := by
      rw [hsem.2, harmflag]
      simp
    have hok : ledsOk (receive_heartbeat (reset_credentials st).2 now).2 = true := by
      rw [receive_heartbeat_ledsOk]
      exact hlarm
    exact (runHeartbeats_cleared ts _ hok hafter).1
  · exact (receive_heartbeat_flag_semantics st now v1 v2 h1 h2).1
  · exact (receive_heartbeat_flag_semantics st now v1 v2 h1 h2).2

theorem one_shot_reset_flag_witness :
    lookupField (receive_heartbeat (reset_credentials Store.empty).2 5).1.body "reset_wifi" =
      some (.jbool true) ∧
    ∀ resp ∈ (runHeartbeats (receive_heartbeat (reset_credentials Store.empty).2 5).2
        [7, 9]).1,
      lookupField resp.body "reset_wifi" = some (.jbool false) :=
  ⟨(one_shot_reset_flag Store.empty 5 [7, 9] (by decide)).1,
   (one_shot_reset_flag Store.empty 5 [7, 9] (by decide)).2.1⟩

/-- C6 counterexample: a store operation that fails while handling
`POST /heartbeat` (here the LED get at line 108, after the heartbeat set
succeeded) surfaces as status 500, not as the 503 service-unavailable
condition. -/
theorem heartbeat_op_failure_is_500 :
    (dispatch true (some 1) .heartbeat Store.empty 0).1.status = 500 ∧
    ¬(dispatch true (some 1) .heartbeat Store.empty 0).1.status = 503 := by
  decide

/-- C6 (amended): when the startup connection failed (`r is None`), every
route answers 503 and leaves the store untouched, with no retry and no
fallback; a store operation that fails during request handling instead
surfaces as 500 from the handler's own except branch (after the control
route's 400 input validation, which runs first), again with no retry —
store writes that preceded the failing operation persist: a heartbeat
request whose failure comes after its first operation still leaves the
heartbeat timestamp updated, while a failure at the very first operation
of any route leaves the store unchanged. -/
theorem store_failure_statuses (req : Request) (st : Store) (now k : Nat)
    (b : Option Nat) :
    (dispatch false b req st now).1.status = 503 ∧
    (dispatch false b req st now).2 = st ∧
    (reqValid req = true → k < requestOps req st →
      (dispatch true (some k) req st now).1.status = 500) ∧
    (reqValid req = false → (dispatch true (some k) req st now).1.status = 400) ∧
    (1 ≤ k → k < receive_heartbeat_ops st →
      (dispatch true (some k) .heartbeat st now).2 =
        { st with last_heartbeat := some (.iso now) }) ∧
    (dispatch true (some 0) req st now).2 = st := by
  refine ⟨by simp [dispatch], by simp [dispatch], ?_, ?_, ?_, ?_⟩
  · intro hv hk
    cases req with
    | heartbeat =>
      show (receive_heartbeat_run st now (some k)).1.status = 500
      exact receive_heartbeat_run_status st now k hk
    | ledStatus =>
      show (get_led_status_run st now (some k)).1.status = 500
      exact get_led_status_run_status st now k hk
    | credReset =>
      show (reset_credentials_run st (some k)).1.status = 500
      unfold reset_credentials_run
      have hk1 : k < 1 := hk
      simp [hk1]
    | ledControl a n =>
      have hd : dispatch true (some k) (.ledControl a n) st now =
          control_led_run st a n (some k) := by
        simp [dispatch, hv]
      rw [hd]
      unfold control_led_run
      have hk1 : k < 1 := hk
      simp [hk1]
  · intro hv
    cases req with
    | heartbeat => simp [reqValid] at hv
    | ledStatus => simp [reqValid] at hv
    | credReset => simp [reqValid] at hv
    | ledControl a n =>
      have hinv : ¬(n = 1 ∨ n = 2) ∨ ¬(a = "on" ∨ a = "off") := by
        simp only [reqValid, Bool.and_eq_false_iff, Bool.or_eq_false_iff,
          decide_eq_false_iff_not] at hv
        tauto
      have hd : dispatch true (some k) (.ledControl a n) st now =
          control_led st a n := by
        simp [dispatch, hv]
      rw [hd]
      exact (control_led_invalid st a n hinv).1
  · intro h1 hk
    show (receive_heartbeat_run st now (some k)).2 = _
    exact receive_heartbeat_run_state st now k h1 hk
  · cases req with
    | heartbeat =>
      show (receive_heartbeat_run st now (some 0)).2 = st
      unfold receive_heartbeat_run
      simp
    | ledStatus =>
      show (get_led_status_run st now (some 0)).2 = st
      exact get_led_status_run_state st now 0
    | credReset =>
      show (reset_credentials_run st (some 0)).2 = st
      unfold reset_credentials_run
      simp
    | ledControl a n =>
      by_cases hv : reqValid (.ledControl a n) = true
      · have hd : dispatch true (some 0) (.ledControl a n) st now =
            control_led_run st a n (some 0) := by
          simp [dispatch, hv]
        rw [hd]
        unfold control_led_run
        simp
      · have hv' : reqValid (.ledControl a n) = false := by
          simpa using hv
        have hinv : ¬(n = 1 ∨ n = 2) ∨ ¬(a = "on" ∨ a = "off") := by
          simp only [reqValid, Bool.and_eq_false_iff, Bool.or_eq_false_iff,
            decide_eq_false_iff_not] at hv'
          tauto
        have hd : dispatch true (some 0) (.ledControl a n) st now =
            control_led st a n := by
          simp [dispatch, hv']
        rw [hd, (control_led_invalid st a n hinv).2]

theorem store_failure_statuses_witness :
    (dispatch false none .ledStatus Store.empty 0).1.status = 503 ∧
    (dispatch true (some 1) .heartbeat Store.empty 7).1.status = 500 ∧
    (dispatch true (some 1) .heartbeat Store.empty 7).2 =
      { Store.empty with last_heartbeat := some (.iso 7) } ∧
    (dispatch true (some 0) .heartbeat Store.empty 7).2 = Store.empty :=
  ⟨(store_failure_statuses .ledStatus Store.empty 0 1 none).1,
   (store_failure_statuses .heartbeat Store.empty 7 1 none).2.2.1 rfl (by decide),
   (store_failure_statuses .heartbeat Store.empty 7 1 none).2.2.2.2.1 (by decide)
     (by decide),
   (store_failure_statuses .heartbeat Store.empty 7 0 none).2.2.2.2.2⟩

/-- C9: the invariant that `led1_state`, `led2_state` and `reset_command`
each hold exactly the string `"0"` or `"1"` is established by
initialization from a first boot and preserved by every handler, so the
integer parse in `_get_led_state` cannot fail on values written by this
program: under the invariant both LED reads yield `0` or `1`. -/
theorem handlers_preserve_store_inv (st : Store) (now : Nat) (action : String)
    (numero : Nat) (h : storeInv st = true) :
    storeInv (initializeStates Store.empty) = true ∧
    storeInv (initializeStates st) = true ∧
    storeInv (receive_heartbeat st now).2 = true ∧
    storeInv (get_led_status st now).2 = true ∧
    storeInv (control_led st action numero).2 = true ∧
    storeInv (reset_credentials st).2 = true ∧
    (_get_led_state st .led1 = some 0 ∨ _get_led_state st .led1 = some 1) ∧
    (_get_led_state st .led2 = some 0 ∨ _get_led_state st .led2 = some 1) := by
  obtain ⟨hl1, hl2, hrc⟩ := (storeInv_iff st).1 h
  obtain ⟨v1, v2, g1, g2⟩ := ledsOk_elim st (storeInv_ledsOk st h)
  have hsem := receive_heartbeat_flag_semantics st now v1 v2 g1 g2
  have hleds := receive_heartbeat_leds st now
  have hne1 : st.led1_state ≠ none := by rcases hl1 with e | e <;> simp [e]
  have hne2 : st.led2_state ≠ none := by rcases hl2 with e | e <;> simp [e]
  have hne3 : st.reset_command ≠ none := by rcases hrc with e | e <;> simp [e]
  refine ⟨by decide, ?_, ?_, ?_, ?_, ?_, ?_, ?_⟩
  · rw [initializeStates_of_present st hne1 hne2 hne3]
    exact h
  · rw [storeInv_iff]
    refine ⟨hleds.1.symm ▸ hl1, hleds.2.symm ▸ hl2, ?_⟩
    rw [hsem.2]
    rcases hrc with e | e <;> simp [e]
  · rw [get_led_status_snd]
    exact h
  · by_cases hn : numero = 1 ∨ numero = 2
    · by_cases ha : action = "on" ∨ action = "off"
      · rcases hn with rfl | rfl <;> rcases ha with rfl | rfl
        · rw [show (control_led st "on" 1).2 = { st with led1_state := some "1" } from rfl,
            storeInv_iff]
          exact ⟨Or.inr rfl, hl2, hrc⟩
        · rw [show (control_led st "off" 1).2 = { st with led1_state := some "0" } from rfl,
            storeInv_iff]
          exact ⟨Or.inl rfl, hl2, hrc⟩
        · rw [show (control_led st "on" 2).2 = { st with led2_state := some "1" } from rfl,
            storeInv_iff]
          exact ⟨hl1, Or.inr rfl, hrc⟩
        · rw [show (control_led st "off" 2).2 = { st with led2_state := some "0" } from rfl,
            storeInv_iff]
          exact ⟨hl1, Or.inl rfl, hrc⟩
      · rw [(control_led_invalid st action numero (Or.inr ha)).2]
        exact h
    · rw [(control_led_invalid st action numero (Or.inl hn)).2]
      exact h
  · rw [show (reset_credentials st).2 = { st with reset_command := some "1" } from rfl,
      storeInv_iff]
    exact ⟨hl1, hl2, Or.inr rfl⟩
  · rcases hl1 with e | e
    · exact Or.inl ((_get_led_state_of_val st .led1 "0" e).trans (by decide))
    · exact Or.inr ((_get_led_state_of_val st .led1 "1" e).trans (by decide))
  · rcases hl2 with e | e
    · exact Or.inl ((_get_led_state_of_val st .led2 "0" e).trans (by decide))
    · exact Or.inr ((_get_led_state_of_val st .led2 "1" e).trans (by decide))

theorem handlers_preserve_store_inv_witness :
    storeInv (receive_heartbeat (initializeStates Store.empty) 3).2 = true ∧
    storeInv (control_led (initializeStates Store.empty) "on" 1).2 = true :=
  ⟨(handlers_preserve_store_inv (initializeStates Store.empty) 3 "on" 1 (by decide)).2.2.1,
   (handlers_preserve_store_inv (initializeStates Store.empty) 3 "on" 1
      (by decide)).2.2.2.2.1⟩

/-- C10: for any stored LED values parsing to `v1`, `v2`, the
`POST /heartbeat` response carries `led1`/`led2` as the raw integers `v1`,
`v2`, while `GET /led/status` carries them as the booleans `v1 = 1`,
`v2 = 1` — the two views agree on which LEDs are on. -/
theorem heartbeat_status_views_agree (st : Store) (now now2 : Nat) (v1 v2 : Int)
    (h1 : _get_led_state st .led1 = some v1) (h2 : _get_led_state st .led2 = some v2) :
    lookupField (receive_heartbeat st now).1.body "led1" = some (.jint v1) ∧
    lookupField (receive_heartbeat st now).1.body "led2" = some (.jint v2) ∧
    lookupField (get_led_status st now2).1.body "led1" =
      some (.jbool (decide (v1 = 1))) ∧
    lookupField (get_led_status st now2).1.body "led2" =
      some (.jbool (decide (v2 = 1))) := by
  have e1 : _get_led_state { st with last_heartbeat := some (.iso now) } .led1 = some v1 :=
    (_get_led_state_set_heartbeat st (some (.iso now)) .led1).trans h1
  have e2 : _get_led_state { st with last_heartbeat := some (.iso now) } .led2 = some v2 :=
    (_get_led_state_set_heartbeat st (some (.iso now)) .led2).trans h2
  refine ⟨?_, ?_, ?_, ?_⟩
  · simp only [receive_heartbeat, e1, e2]
    simp [lookupField]
  · simp only [receive_heartbeat, e1, e2]
    simp [lookupField]
  · simp only [get_led_status, h1, h2]
    simp [lookupField]
  · simp only [get_led_status, h1, h2]
    simp [lookupField]

theorem heartbeat_status_views_agree_witness :
    lookupField (receive_heartbeat (initializeStates Store.empty) 3).1.body "led1" =
      some (.jint 0) ∧
    lookupField (get_led_status (initializeStates Store.empty) 3).1.body "led1" =
      some (.jbool false) :=
  ⟨(heartbeat_status_views_agree (initializeStates Store.empty) 3 3 0 0 rfl rfl).1,
   (heartbeat_status_views_agree (initializeStates Store.empty) 3 3 0 0 rfl rfl).2.2.1⟩

end Esp32Control
